import Mathlib

/-!
Verification of the kemono.su downloader (src/kemono.py) against its
natural-language specification.

The Python program is shallowly embedded:
* JSON payloads become the inductive `Json`; Python `dict[key]` access that
  raises `KeyError` becomes `Json.get` returning `Except Err`.
* The decoders `Creator.from_json`, `KemonoAttachment.from_json` and
  `KemonoPost.from_json` are translated field-access by field-access, in the
  order Python evaluates them.
* `tenacity.retry(stop=tenacity.stop_after_attempt(5))` becomes the
  combinator `withRetryC`: the wrapped operation is modelled as a function
  from the 1-based attempt number to a result, and the combinator also
  returns the number of invocations made.  tenacity retries on every
  exception and, after the final failed attempt, raises `RetryError`
  carrying the last attempt (error and attempt number); this is
  `Err.retryError`.
* The `log_errors` decorator becomes `log_errors`, which passes a success
  through and records one `LogEvent.errorE` for an error before re-raising
  it.  Info-level logs of the program (submission / completion messages,
  timing) are irrelevant to the claims and are elided.
* `functools.cache` on `get_creator_data` becomes explicit state passing of
  a `CacheState` (association list keyed by `(creator_id, service)` plus a
  counter of underlying HTTP attempts).
* The `ThreadPoolExecutor` in `download_posts` is left inside a `with`
  block, so the executor is shut down with `wait=True` before the function
  returns: every returned future is completed.  A submitted task whose
  function raises stores the exception in its future; this is each task's
  `Except Err Path` outcome, listed in submission order.
* For the concurrency behaviour of `functools.cache` (claim C9) a small
  interleaving model is used: per CPython's documentation the cache's dict
  operations are atomic but the wrapped function is invoked outside any
  lock, so a worker's execution is the atomic steps read / fetch / write.
-/

namespace Kemono

/-- Exceptions of the embedded program.  `retryError` is tenacity's
`RetryError`, wrapping the last attempt's error and the attempt count. -/
inductive Err where
  | http (status : Nat)
  | keyError (key : String)
  | typeError (key : String)
  | retryError (last : Err) (attempts : Nat)
deriving DecidableEq, Repr

/-- Log events relevant to the claims: `logging.error` calls made by the
`log_errors` decorator, and the two `logger.info` summary lines printed by
`summarize_download` (carrying the numbers they interpolate; the division
by 1024*1024 in the second line is string formatting and is elided). -/
inductive LogEvent where
  | errorE (e : Err)
  | summaryCounts (downloaded submitted : Nat)
  | summarySize (bytes : Nat)
deriving DecidableEq, Repr

/-- File-system paths, as a list of segments; `Path./` is list append. -/
abbrev FilePath := List String

def DEFAULT_DOWNLOADS_PATH : FilePath := ["downloads"]

/-- JSON values (only the shapes the program touches). -/
inductive Json where
  | str (s : String)
  | num (n : Nat)
  | obj (fields : List (String × Json))
  | arr (elems : List Json)

def lookupField : List (String × Json) → String → Option Json
  | [], _ => none
  | (k, v) :: rest, key => if k = key then some v else lookupField rest key

/-- Python `json[key]`: `KeyError` when the key is absent, `TypeError`-like
failure when the value is not a dict. -/
def Json.get (j : Json) (key : String) : Except Err Json :=
  match j with
  | Json.obj fields =>
    match lookupField fields key with
    | some v => Except.ok v
    | none => Except.error (Err.keyError key)
  | _ => Except.error (Err.typeError key)

/-- Field access that is subsequently used as a string (Python is
duck-typed here; a non-string value would fail at its first string
operation, modelled as an immediate type failure). -/
def Json.getStr (j : Json) (key : String) : Except Err String :=
  match j.get key with
  | Except.error e => Except.error e
  | Except.ok (Json.str s) => Except.ok s
  | Except.ok _ => Except.error (Err.typeError key)

/-- A payload that is iterated over (Python would raise if it is not
iterable). -/
def Json.asArr (j : Json) (key : String) : Except Err (List Json) :=
  match j with
  | Json.arr es => Except.ok es
  | _ => Except.error (Err.typeError key)

/-- The `Creator` dataclass. -/
structure Creator where
  id : String
  name : String
  service : String
deriving DecidableEq, Repr

/-- `Creator.from_json`: reads `id`, `name`, `service`. -/
def Creator.from_json (json : Json) : Except Err Creator :=
  match json.getStr "id" with
  | Except.error e => Except.error e
  | Except.ok i =>
    match json.getStr "name" with
    | Except.error e => Except.error e
    | Except.ok n =>
      match json.getStr "service" with
      | Except.error e => Except.error e
      | Except.ok s => Except.ok { id := i, name := n, service := s }

/-- The `KemonoAttachment` dataclass. -/
structure KemonoAttachment where
  name : String
  path : String
  server : String
  filename : String
  parent_path : FilePath
deriving DecidableEq, Repr

/-- `KemonoAttachment.from_json`.  Python defaults: a falsy `filename`
(`None` or the empty string) is replaced by `json['name']`; a falsy
`folder_path` by `DEFAULT_DOWNLOADS_PATH`. -/
def KemonoAttachment.from_json (json : Json) (filename : Option String)
    (folder_path : Option FilePath) : Except Err KemonoAttachment :=
  match json.getStr "name" with
  | Except.error e => Except.error e
  | Except.ok name =>
    match json.getStr "path" with
    | Except.error e => Except.error e
    | Except.ok path =>
      match json.getStr "server" with
      | Except.error e => Except.error e
      | Except.ok server =>
        let fn := match filename with
          | none => name
          | some f => if f = "" then name else f
        let fp := match folder_path with
          | none => DEFAULT_DOWNLOADS_PATH
          | some p => if p = [] then DEFAULT_DOWNLOADS_PATH else p
        Except.ok { name := name, path := path, server := server,
                    filename := fn, parent_path := fp }

/-- Python `s.rsplit('.', maxsplit=1)[-1]`: the substring after the last
dot, or the whole string when it contains no dot. -/
def rsplitLastDot (s : String) : String :=
  String.mk ((s.data.reverse.takeWhile (fun c => c ≠ '.')).reverse)

/-- The filename the pictures comprehension builds for the preview at
1-based position `n`:
`f'{picture_number}.{picture_json["path"].rsplit(".", maxsplit=1)[-1]}'`. -/
def pictureFilename (n : Nat) (path : String) : String :=
  toString n ++ "." ++ rsplitLastDot path

/-- The pictures list comprehension of `KemonoPost.from_json`:
`enumerate(json['previews'], start=1)`, each element decoded with the
generated filename.  Python evaluates the filename f-string (which reads
`picture_json['path']`) before calling `KemonoAttachment.from_json`. -/
def makePicturesGo (folder : FilePath) : Nat → List Json → Except Err (List KemonoAttachment)
  | _, [] => Except.ok []
  | n, j :: rest =>
    match j.getStr "path" with
    | Except.error e => Except.error e
    | Except.ok p =>
      match KemonoAttachment.from_json j (some (pictureFilename n p)) (some folder) with
      | Except.error e => Except.error e
      | Except.ok a =>
        match makePicturesGo folder (n + 1) rest with
        | Except.error e => Except.error e
        | Except.ok rest2 => Except.ok (a :: rest2)

/-- The file-attachments list comprehension of `KemonoPost.from_json`:
no filename override, so each keeps `json['name']`. -/
def makeAttachmentsGo (folder : FilePath) : List Json → Except Err (List KemonoAttachment)
  | [] => Except.ok []
  | j :: rest =>
    match KemonoAttachment.from_json j none (some folder) with
    | Except.error e => Except.error e
    | Except.ok a =>
      match makeAttachmentsGo folder rest with
      | Except.error e => Except.error e
      | Except.ok rest2 => Except.ok (a :: rest2)

/-- The `KemonoPost` dataclass. -/
structure KemonoPost where
  id : String
  title : String
  pictures : List KemonoAttachment
  file_attachments : List KemonoAttachment
  folder_path : FilePath
  creator : Creator
deriving DecidableEq, Repr

/-- `KemonoPost.from_json`.  The call to `get_creator_data` is abstracted
as the collaborator `resolve creator_id service` (its caching and retry
behaviour are modelled separately by `get_creator_data` below).  Field
accesses happen in Python's evaluation order: `post.user`, `post.service`
(for the creator), then `post.id`, `post.title`, the folder path, the
previews comprehension, then the attachments comprehension. -/
def KemonoPost.from_json (resolve : String → String → Except Err Creator)
    (json : Json) : Except Err KemonoPost :=
  match json.get "post" with
  | Except.error e => Except.error e
  | Except.ok post =>
    match post.getStr "user" with
    | Except.error e => Except.error e
    | Except.ok user =>
      match post.getStr "service" with
      | Except.error e => Except.error e
      | Except.ok service =>
        match resolve user service with
        | Except.error e => Except.error e
        | Except.ok creator =>
          match post.getStr "id" with
          | Except.error e => Except.error e
          | Except.ok post_id =>
            match post.getStr "title" with
            | Except.error e => Except.error e
            | Except.ok title =>
              let folder_path := DEFAULT_DOWNLOADS_PATH ++
                ["[" ++ creator.name ++ "] " ++ title ++ " (" ++ post_id ++ ")"]
              match json.get "previews" with
              | Except.error e => Except.error e
              | Except.ok pv =>
                match pv.asArr "previews" with
                | Except.error e => Except.error e
                | Except.ok previews =>
                  match makePicturesGo folder_path 1 previews with
                  | Except.error e => Except.error e
                  | Except.ok pictures =>
                    match json.get "attachments" with
                    | Except.error e => Except.error e
                    | Except.ok att =>
                      match att.asArr "attachments" with
                      | Except.error e => Except.error e
                      | Except.ok atts =>
                        match makeAttachmentsGo folder_path atts with
                        | Except.error e => Except.error e
                        | Except.ok file_attachments =>
                          Except.ok { id := post_id, title := title,
                                      pictures := pictures,
                                      file_attachments := file_attachments,
                                      folder_path := folder_path,
                                      creator := creator }

/-! ## Retry policy (tenacity) -/

/-- Core loop of `tenacity.retry(stop=tenacity.stop_after_attempt(5))`.
The fallible operation is modelled as a map from the 1-based attempt
number to that invocation's outcome.  `attempt` is the current attempt
number, `rest` the number of further attempts the stop condition still
allows.  On success the result is returned; on failure with no attempt
left, `RetryError` wrapping the last error and the attempt count is
raised.  The second component is the number of invocations made in total
(equal to the final attempt number, since attempts are consecutive). -/
def retryGoC (op : Nat → Except Err α) : Nat → Nat → Except Err α × Nat
  | attempt, 0 =>
    match op attempt with
    | Except.ok a => (Except.ok a, attempt)
    | Except.error e => (Except.error (Err.retryError e attempt), attempt)
  | attempt, rest + 1 =>
    match op attempt with
    | Except.ok a => (Except.ok a, attempt)
    | Except.error _ => retryGoC op (attempt + 1) rest

/-- `tenacity.retry(stop=tenacity.stop_after_attempt(maxAttempts))`
applied to `op`, starting from attempt 1. -/
def withRetryC (maxAttempts : Nat) (op : Nat → Except Err α) : Except Err α × Nat :=
  retryGoC op 1 (maxAttempts - 1)

/-- The `log_errors` decorator: a success passes through; an exception is
logged with `logging.error` and re-raised. -/
def log_errors (r : Except Err α) : Except Err α × List LogEvent :=
  match r with
  | Except.ok a => (Except.ok a, [])
  | Except.error e => (Except.error e, [LogEvent.errorE e])

/-- The decorator stack `@log_errors` over `@tenacity.retry(...)` shared by
`get_post_data` and `download_attachment`: result, number of invocations
of the wrapped body, and the log events emitted.  tenacity itself logs
nothing here (no `before_sleep` logger is configured), so the only error
log is the one `log_errors` emits for the final outcome. -/
def retriedLoggedOp (op : Nat → Except Err α) : Except Err α × Nat × List LogEvent :=
  ((log_errors (withRetryC 5 op).1).1,
   (withRetryC 5 op).2,
   (log_errors (withRetryC 5 op).1).2)

def isErrLog : LogEvent → Bool
  | LogEvent.errorE _ => true
  | _ => false

/-- Number of failure log events in a log trace. -/
def errLogCount (ls : List LogEvent) : Nat :=
  (ls.filter isErrLog).length

/-! ## Creator cache (`functools.cache` on `get_creator_data`) -/

/-- Cache key: the argument tuple `(creator_id, service)` (always passed
as the same keywords at the single call site). -/
abbrev CKey := String × String

def lookupKey : List (CKey × Creator) → CKey → Option Creator
  | [], _ => none
  | (k, c) :: rest, key => if k = key then some c else lookupKey rest key

/-- State threaded through `get_creator_data` calls: the memoization
dictionary of `functools.cache` and a counter of underlying HTTP GET
attempts (the collaborator call counter of the spec). -/
structure CacheState where
  cache : List (CKey × Creator)
  fetchCalls : Nat
deriving DecidableEq, Repr

/-- `get_creator_data`, decorated `@log_errors`, then `@cache`, then
`@tenacity.retry(stop=stop_after_attempt(5))` (outermost first).  The
HTTP collaborator `http creator_id service attempt` yields the profile
JSON of the given attempt, or the attempt's failure.  A cache hit returns
the stored `Creator` with no HTTP call and no log.  A miss runs the
retried fetch-and-decode body; only a success is stored by
`functools.cache` (an exception propagates and caches nothing), and
`log_errors`, sitting outside the cache, logs it. -/
def get_creator_data (http : String → String → Nat → Except Err Json)
    (creator_id service : String) (s : CacheState) :
    Except Err Creator × CacheState × List LogEvent :=
  match lookupKey s.cache (creator_id, service) with
  | some c => (Except.ok c, s, [])
  | none =>
    let r := withRetryC 5 (fun attempt =>
      match http creator_id service attempt with
      | Except.error e => Except.error e
      | Except.ok j => Creator.from_json j)
    match r.1 with
    | Except.ok c =>
      (Except.ok c,
       { cache := ((creator_id, service), c) :: s.cache,
         fetchCalls := s.fetchCalls + r.2 }, [])
    | Except.error e =>
      (Except.error e,
       { cache := s.cache, fetchCalls := s.fetchCalls + r.2 },
       [LogEvent.errorE e])

/-! ## Metadata resolver (`get_post_data`) -/

/-- `get_post_data`, decorated `@log_errors` then `@tenacity.retry(...)`:
the whole body — the HTTP GET (`http attempt`) followed by
`KemonoPost.from_json` — sits inside the retry wrapper, so every
exception either of them raises consumes a retry attempt. -/
def get_post_data (resolve : String → String → Except Err Creator)
    (http : Nat → Except Err Json) : Except Err KemonoPost × Nat × List LogEvent :=
  retriedLoggedOp (fun attempt =>
    match http attempt with
    | Except.error e => Except.error e
    | Except.ok j => KemonoPost.from_json resolve j)

/-! ## Download orchestrator (`download_posts`) and summary -/

/-- The flattening order of `download_posts`: for each post in order,
`(*post.pictures, *post.file_attachments)`. -/
def flattenAttachments (posts : List KemonoPost) : List KemonoAttachment :=
  match posts with
  | [] => []
  | p :: rest => p.pictures ++ p.file_attachments ++ flattenAttachments rest

/-- `download_posts`: posts are produced lazily by `get_post_data` per URL
(collaborator `fetchPost`), and every attachment is submitted to the
thread pool in flattening order.  A task's exception is captured in its
future, giving the per-task outcome `download a : Except Err FilePath`
(the executor's `with` block waits for all tasks before the function
returns).  An exception raised by `fetchPost` itself, however, propagates
out of the list comprehension and aborts `download_posts` — no outcome
list is returned then. -/
def download_posts (fetchPost : String → Except Err KemonoPost)
    (download : KemonoAttachment → Except Err FilePath) :
    List String → Except Err (List (Except Err FilePath))
  | [] => Except.ok []
  | u :: rest =>
    match fetchPost u with
    | Except.error e => Except.error e
    | Except.ok post =>
      match download_posts fetchPost download rest with
      | Except.error e => Except.error e
      | Except.ok outs =>
        Except.ok ((post.pictures ++ post.file_attachments).map download ++ outs)

/-- Python `not task.exception()` for a completed future. -/
def taskOk : Except Err FilePath → Bool
  | Except.ok _ => true
  | Except.error _ => false

/-- `task.result()` for a future known to have succeeded (never reached
for a failed task; the default is irrelevant). -/
def taskResult : Except Err FilePath → FilePath
  | Except.ok p => p
  | Except.error _ => []

/-- `summarize_download`: counts the submitted and successful tasks, sums
`task.result().stat().st_size` over the successful ones (the stat
collaborator `fs` maps a path to its on-disk size), writes the two
summary lines to the log, and returns `None`. -/
def summarize_download (fs : FilePath → Nat)
    (download_tasks : List (Except Err FilePath)) : Unit × List LogEvent :=
  let total_files_submitted := download_tasks.length
  let successful_downloads := download_tasks.filter (fun t => taskOk t)
  let total_files_downloaded := successful_downloads.length
  let total_file_size := (successful_downloads.map (fun t => fs (taskResult t))).sum
  ((), [LogEvent.summaryCounts total_files_downloaded total_files_submitted,
        LogEvent.summarySize total_file_size])

/-! ## Interleaving model of `functools.cache` under threads (for C9)

Per CPython's documentation, `functools.cache` is thread-safe in the sense
that its dictionary stays coherent, but the wrapped function may be called
more than once when another thread calls before the first call has been
cached.  A worker resolving key `k` therefore executes three atomic steps:
read the dict (hit returns the entry, miss proceeds), invoke the wrapped
fetch (outside any lock), and store the result.  -/

/-- Program counter of one worker resolving a creator key. -/
inductive WPC where
  | start
  | missed
  | fetched (c : Creator)
  | done (c : Creator)
deriving DecidableEq, Repr

/-- Shared state plus the two workers' program counters. -/
structure ConcState where
  cache : List (CKey × Creator)
  fetchCount : Nat
  pc1 : WPC
  pc2 : WPC
deriving DecidableEq, Repr

/-- One atomic step of a worker resolving key `k` against the shared
cache: the dict read, the unlocked fetch, and the dict store. -/
def workerStep (fetch : CKey → Creator) (k : CKey) (pc : WPC)
    (cache : List (CKey × Creator)) (n : Nat) :
    WPC × List (CKey × Creator) × Nat :=
  match pc with
  | WPC.start =>
    match lookupKey cache k with
    | some c => (WPC.done c, cache, n)
    | none => (WPC.missed, cache, n)
  | WPC.missed => (WPC.fetched (fetch k), cache, n + 1)
  | WPC.fetched c => (WPC.done c, (k, c) :: cache, n)
  | WPC.done c => (WPC.done c, cache, n)

/-- Scheduler step: `true` runs worker 1 (key `k1`), `false` worker 2
(key `k2`). -/
def schedStep (fetch : CKey → Creator) (k1 k2 : CKey) (s : ConcState)
    (who : Bool) : ConcState :=
  if who then
    match workerStep fetch k1 s.pc1 s.cache s.fetchCount with
    | (pc, cache, n) => { cache := cache, fetchCount := n, pc1 := pc, pc2 := s.pc2 }
  else
    match workerStep fetch k2 s.pc2 s.cache s.fetchCount with
    | (pc, cache, n) => { cache := cache, fetchCount := n, pc1 := s.pc1, pc2 := pc }

/-- Run a schedule (a list of worker choices) from an initial state. -/
def runSched (fetch : CKey → Creator) (k1 k2 : CKey) (s : ConcState) :
    List Bool → ConcState
  | [] => s
  | who :: rest => runSched fetch k1 k2 (schedStep fetch k1 k2 s who) rest

/-- Both workers start with an empty cache. -/
def initConc : ConcState :=
  { cache := [], fetchCount := 0, pc1 := WPC.start, pc2 := WPC.start }

/-- The overlapping schedule: both workers read (and miss) before either
has stored its result. -/
def overlapSched : List Bool := [true, false, true, true, false, false]

/-! ## Concrete fixtures used by counterexamples and witnesses -/

/-- An operation that fails its first two invocations and succeeds on the
third. -/
def opSucceedsAt3 : Nat → Except Err Nat :=
  fun n => if n ≤ 2 then Except.error (Err.http 500) else Except.ok 7

/-- An operation that fails every invocation. -/
def opAlwaysFails : Nat → Except Err Nat :=
  fun _ => Except.error (Err.http 500)

def creator0 : Creator := { id := "c1", name := "Alice", service := "patreon" }

def creatorProfileJson : Json :=
  Json.obj [("id", Json.str "c1"), ("name", Json.str "Alice"),
            ("service", Json.str "patreon")]

/-- A profile endpoint that answers every attempt successfully. -/
def httpProfileOk : String → String → Nat → Except Err Json :=
  fun _ _ _ => Except.ok creatorProfileJson

/-- A profile endpoint that fails every attempt with HTTP 500. -/
def httpProfileFail : String → String → Nat → Except Err Json :=
  fun _ _ _ => Except.error (Err.http 500)

/-- A creator resolver that always succeeds (stands for a populated
creator cache). -/
def resolve0 : String → String → Except Err Creator :=
  fun _ _ => Except.ok creator0

/-- A post payload missing the required `post` field. -/
def badPayload : Json := Json.obj []

/-- A preview payload with the given remote path. -/
def previewJson (p : String) : Json :=
  Json.obj [("name", Json.str "pic"), ("path", Json.str p),
            ("server", Json.str "https://n1.kemono.su")]

/-- A file-attachment payload with the given name. -/
def attachJson (n : String) : Json :=
  Json.obj [("name", Json.str n), ("path", Json.str "/f/data.bin"),
            ("server", Json.str "https://n2.kemono.su")]

/-- Scenario A's first post payload: two previews with extensions `.jpg`
and `.png` and one file attachment named `file.zip`. -/
def jsonPostA : Json :=
  Json.obj [("post", Json.obj [("user", Json.str "c1"),
                               ("service", Json.str "patreon"),
                               ("id", Json.str "p1"),
                               ("title", Json.str "T")]),
            ("previews", Json.arr [previewJson "a.jpg", previewJson "b.png"]),
            ("attachments", Json.arr [attachJson "file.zip"])]

def folderA : FilePath := ["downloads", "[Alice] T (p1)"]

/-- The decoding of `jsonPostA`. -/
def postA : KemonoPost :=
  { id := "p1", title := "T",
    pictures :=
      [{ name := "pic", path := "a.jpg", server := "https://n1.kemono.su",
         filename := "1.jpg", parent_path := folderA },
       { name := "pic", path := "b.png", server := "https://n1.kemono.su",
         filename := "2.png", parent_path := folderA }],
    file_attachments :=
      [{ name := "file.zip", path := "/f/data.bin",
         server := "https://n2.kemono.su", filename := "file.zip",
         parent_path := folderA }],
    folder_path := folderA, creator := creator0 }

/-- Scenario A's second post: no attachments at all. -/
def postB : KemonoPost :=
  { id := "p2", title := "E", pictures := [], file_attachments := [],
    folder_path := ["downloads", "[Alice] E (p2)"], creator := creator0 }

/-- A post fetcher for the batch `["uA", "uB"]`: both posts resolve. -/
def fetchA : String → Except Err KemonoPost :=
  fun u => if u = "uA" then KemonoPost.from_json resolve0 jsonPostA
           else Except.ok postB

/-- A post fetcher for the batch `["u1", "u2"]` whose second post's
metadata fetch exhausts its retries. -/
def fetchPost1 : String → Except Err KemonoPost :=
  fun u => if u = "u1" then Except.ok postA
           else Except.error (Err.retryError (Err.http 500) 5)

/-- A downloader for which every attachment succeeds. -/
def dlOk : KemonoAttachment → Except Err FilePath :=
  fun a => Except.ok (a.parent_path ++ [a.filename])

/-- A downloader that succeeds only on the first picture of `postA` and
fails on every sibling. -/
def dlOnlyFirst : KemonoAttachment → Except Err FilePath :=
  fun a => if a.filename = "1.jpg" then Except.ok (a.parent_path ++ [a.filename])
           else Except.error (Err.retryError (Err.http 500) 5)

def kA : CKey := ("c1", "patreon")
def kB : CKey := ("c2", "patreon")

/-- The concurrency model's fetch collaborator for the witnesses. -/
def fetchC : CKey → Creator :=
  fun k => { id := k.1, name := "N", service := k.2 }

/-- The decoding of the previews `["a.jpg", "noext"]` under `folderA`. -/
def picsW : List KemonoAttachment :=
  [{ name := "pic", path := "a.jpg", server := "https://n1.kemono.su",
     filename := "1.jpg", parent_path := folderA },
   { name := "pic", path := "noext", server := "https://n1.kemono.su",
     filename := "2.noext", parent_path := folderA }]

/-- The decoding of the file attachment `file.zip` under `folderA`. -/
def attsW : List KemonoAttachment :=
  [{ name := "file.zip", path := "/f/data.bin",
     server := "https://n2.kemono.su", filename := "file.zip",
     parent_path := folderA }]

/-! ## Theorems -/

/-- C2: for every operation wrapped by
`tenacity.retry(stop=stop_after_attempt(5))` — creator fetch, post fetch,
attachment download — failing the first `k < 5` invocations and
succeeding on invocation `k + 1` returns the success with exactly `k + 1`
invocations; failing every invocation makes exactly 5 invocations and
surfaces the last error wrapped in `RetryError` together with the attempt
count. -/
theorem c2_retry_attempt_counts {α : Type} (op : Nat → Except Err α) :
    (∀ (k : Nat) (a : α), k < 5 →
        (∀ i, 1 ≤ i → i ≤ k → ∃ e, op i = Except.error e) →
        op (k + 1) = Except.ok a →
        withRetryC 5 op = (Except.ok a, k + 1)) ∧
    (∀ e : Nat → Err, (∀ i, op i = Except.error (e i)) →
        withRetryC 5 op = (Except.error (Err.retryError (e 5) 5), 5)) := by
  constructor
  · intro k a hk hfail hsucc
    interval_cases k
    · simp [withRetryC, retryGoC, hsucc]
    · obtain ⟨e1, h1⟩ := hfail 1 (by omega) (by omega)
      simp [withRetryC, retryGoC, h1, hsucc]
    · obtain ⟨e1, h1⟩ := hfail 1 (by omega) (by omega)
      obtain ⟨e2, h2⟩ := hfail 2 (by omega) (by omega)
      simp [withRetryC, retryGoC, h1, h2, hsucc]
    · obtain ⟨e1, h1⟩ := hfail 1 (by omega) (by omega)
      obtain ⟨e2, h2⟩ := hfail 2 (by omega) (by omega)
      obtain ⟨e3, h3⟩ := hfail 3 (by omega) (by omega)
      simp [withRetryC, retryGoC, h1, h2, h3, hsucc]
    · obtain ⟨e1, h1⟩ := hfail 1 (by omega) (by omega)
      obtain ⟨e2, h2⟩ := hfail 2 (by omega) (by omega)
      obtain ⟨e3, h3⟩ := hfail 3 (by omega) (by omega)
      obtain ⟨e4, h4⟩ := hfail 4 (by omega) (by omega)
      simp [withRetryC, retryGoC, h1, h2, h3, h4, hsucc]
  · intro e hall
    simp [withRetryC, retryGoC, hall 1, hall 2, hall 3, hall 4, hall 5]

/-- Witness for C2: an operation failing twice then succeeding is invoked
3 times and returns the success; an always-failing operation is invoked
5 times and its last error surfaces with the attempt count. -/
theorem c2_retry_attempt_counts_witness :
    ((2 : Nat) < 5 ∧ withRetryC 5 opSucceedsAt3 = (Except.ok 7, 3)) ∧
    withRetryC 5 opAlwaysFails =
      (Except.error (Err.retryError (Err.http 500) 5), 5) :=
  ⟨⟨by decide,
    (c2_retry_attempt_counts opSucceedsAt3).1 2 7 (by decide)
      (fun _ _ h2 => ⟨Err.http 500, by simp [opSucceedsAt3, h2]⟩) rfl⟩,
   (c2_retry_attempt_counts opAlwaysFails).2 (fun _ => Err.http 500)
     (fun _ => rfl)⟩

/-- C5 counterexample: `get_post_data` puts the whole body — HTTP fetch
and `KemonoPost.from_json` — inside the tenacity wrapper, which retries
on every exception.  With the HTTP response always received successfully
but the payload missing the required `post` field, the decode failure is
re-attempted: the body is invoked 5 times, not 1, and what surfaces is
the `RetryError`-wrapped `KeyError`, not an immediate malformed-response
failure. -/
theorem c5_counterexample :
    get_post_data resolve0 (fun _ => Except.ok badPayload) =
      (Except.error (Err.retryError (Err.keyError "post") 5), 5,
       [LogEvent.errorE (Err.retryError (Err.keyError "post") 5)]) ∧
    ¬ (5 : Nat) = 1 := ⟨rfl, by decide⟩

/-- C5 amended: decoding failures are retried exactly like transient
failures — a post fetch whose HTTP response always arrives but whose
payload fails to decode invokes the fetch-and-decode body 5 times and
surfaces the decode error wrapped in `RetryError` with the attempt
count. -/
theorem c5_decode_failures_consume_retries
    (resolve : String → String → Except Err Creator) (payload : Json) (e : Err)
    (hdec : KemonoPost.from_json resolve payload = Except.error e) :
    get_post_data resolve (fun _ => Except.ok payload) =
      (Except.error (Err.retryError e 5), 5,
       [LogEvent.errorE (Err.retryError e 5)]) := by
  simp [get_post_data, retriedLoggedOp, withRetryC, retryGoC, hdec, log_errors]

/-- Witness for C5's amended statement at the payload missing `post`. -/
theorem c5_decode_failures_consume_retries_witness :
    KemonoPost.from_json resolve0 badPayload =
      Except.error (Err.keyError "post") ∧
    get_post_data resolve0 (fun _ => Except.ok badPayload) =
      (Except.error (Err.retryError (Err.keyError "post") 5), 5,
       [LogEvent.errorE (Err.retryError (Err.keyError "post") 5)]) :=
  ⟨rfl, c5_decode_failures_consume_retries resolve0 badPayload
          (Err.keyError "post") rfl⟩

/-- C8 counterexample: `log_errors` sits outside the tenacity wrapper and
tenacity is configured with no per-attempt logging, so an operation that
fails twice and then succeeds emits 0 failure log events — not the 2 the
claim requires. -/
theorem c8_counterexample :
    (retriedLoggedOp opSucceedsAt3).1 = Except.ok 7 ∧
    (retriedLoggedOp opSucceedsAt3).2.1 = 3 ∧
    errLogCount (retriedLoggedOp opSucceedsAt3).2.2 = 0 ∧
    ¬ errLogCount (retriedLoggedOp opSucceedsAt3).2.2 = 2 :=
  ⟨rfl, rfl, rfl, by decide⟩

/-- C8 amended: intermediate retried attempts produce no log events; the
`log_errors` decorator records exactly one failure event — carrying the
final `RetryError` — precisely when the retried operation's overall
outcome is a failure, and none when it eventually succeeds. -/
theorem c8_only_final_failure_logged {α : Type} (op : Nat → Except Err α) :
    errLogCount (retriedLoggedOp op).2.2 =
      match (withRetryC 5 op).1 with
      | Except.ok _ => 0
      | Except.error _ => 1 := by
  rcases h : (withRetryC 5 op).1 with a | e <;>
    simp [retriedLoggedOp, log_errors, errLogCount, isErrLog, h]

/-- C3: per `(creator_id, service)` key, a cache miss whose fetch succeeds
on the first attempt performs exactly one underlying HTTP call and stores
the Creator; a second call with the same pair is a hit that returns the
very entry stored by the first call (the same instance) with the cache
state unchanged — no network access, no logs. -/
theorem c3_creator_cache_memoized
    (http : String → String → Nat → Except Err Json)
    (cid service : String) (s : CacheState) (j : Json) (c : Creator)
    (hmiss : lookupKey s.cache (cid, service) = none)
    (hhttp : http cid service 1 = Except.ok j)
    (hdec : Creator.from_json j = Except.ok c) :
    get_creator_data http cid service s =
      (Except.ok c,
       { cache := ((cid, service), c) :: s.cache,
         fetchCalls := s.fetchCalls + 1 }, []) ∧
    get_creator_data http cid service
        { cache := ((cid, service), c) :: s.cache,
          fetchCalls := s.fetchCalls + 1 } =
      (Except.ok c,
       { cache := ((cid, service), c) :: s.cache,
         fetchCalls := s.fetchCalls + 1 }, []) := by
  constructor
  · simp [get_creator_data, hmiss, withRetryC, retryGoC, hhttp, hdec]
  · simp [get_creator_data, lookupKey]

/-- Witness for C3 on an empty cache with a first-attempt-success
profile endpoint. -/
theorem c3_creator_cache_memoized_witness :
    lookupKey ([] : List (CKey × Creator)) ("c1", "patreon") = none ∧
    (get_creator_data httpProfileOk "c1" "patreon"
         { cache := [], fetchCalls := 0 } =
       (Except.ok creator0,
        { cache := [(("c1", "patreon"), creator0)], fetchCalls := 1 }, []) ∧
     get_creator_data httpProfileOk "c1" "patreon"
         { cache := [(("c1", "patreon"), creator0)], fetchCalls := 1 } =
       (Except.ok creator0,
        { cache := [(("c1", "patreon"), creator0)], fetchCalls := 1 }, [])) :=
  ⟨rfl, c3_creator_cache_memoized httpProfileOk "c1" "patreon"
          { cache := [], fetchCalls := 0 } creatorProfileJson creator0
          rfl rfl rfl⟩

/-- C10: `@cache` sits outside `@tenacity.retry`, and `functools.cache`
stores nothing when the wrapped call raises — so a creator resolution
that exhausts its 5 attempts leaves the cache without the key, and a
second call for the same pair misses again and performs a fresh
underlying fetch (5 further HTTP attempts) instead of replaying a cached
failure. -/
theorem c10_failed_resolution_not_cached
    (http : String → String → Nat → Except Err Json)
    (cid service : String) (s : CacheState) (e : Nat → Err)
    (hmiss : lookupKey s.cache (cid, service) = none)
    (hfail : ∀ n, http cid service n = Except.error (e n)) :
    get_creator_data http cid service s =
      (Except.error (Err.retryError (e 5) 5),
       { cache := s.cache, fetchCalls := s.fetchCalls + 5 },
       [LogEvent.errorE (Err.retryError (e 5) 5)]) ∧
    get_creator_data http cid service
        { cache := s.cache, fetchCalls := s.fetchCalls + 5 } =
      (Except.error (Err.retryError (e 5) 5),
       { cache := s.cache, fetchCalls := s.fetchCalls + 5 + 5 },
       [LogEvent.errorE (Err.retryError (e 5) 5)]) := by
  constructor
  · simp [get_creator_data, hmiss, withRetryC, retryGoC,
          hfail 1, hfail 2, hfail 3, hfail 4, hfail 5]
  · simp [get_creator_data, hmiss, withRetryC, retryGoC,
          hfail 1, hfail 2, hfail 3, hfail 4, hfail 5]

/-- Witness for C10 on an empty cache with an always-failing profile
endpoint: 5 attempts, nothing cached, then 5 fresh attempts. -/
theorem c10_failed_resolution_not_cached_witness :
    lookupKey ([] : List (CKey × Creator)) ("c1", "patreon") = none ∧
    (get_creator_data httpProfileFail "c1" "patreon"
         { cache := [], fetchCalls := 0 } =
       (Except.error (Err.retryError (Err.http 500) 5),
        { cache := [], fetchCalls := 5 },
        [LogEvent.errorE (Err.retryError (Err.http 500) 5)]) ∧
     get_creator_data httpProfileFail "c1" "patreon"
         { cache := [], fetchCalls := 5 } =
       (Except.error (Err.retryError (Err.http 500) 5),
        { cache := [], fetchCalls := 10 },
        [LogEvent.errorE (Err.retryError (Err.http 500) 5)])) :=
  ⟨rfl, c10_failed_resolution_not_cached httpProfileFail "c1" "patreon"
          { cache := [], fetchCalls := 0 } (fun _ => Err.http 500)
          rfl (fun _ => rfl)⟩

/-- Helper: when every post fetch succeeds, `download_posts` returns the
per-task outcomes of the flattened attachment list, in submission
order. -/
theorem download_posts_ok_eq (fetchPost : String → Except Err KemonoPost)
    (download : KemonoAttachment → Except Err FilePath)
    (urls : List String) (posts : List KemonoPost)
    (h : urls.map fetchPost = posts.map Except.ok) :
    download_posts fetchPost download urls =
      Except.ok ((flattenAttachments posts).map download) := by
  induction urls generalizing posts with
  | nil =>
    cases posts with
    | nil => rfl
    | cons p ps => simp at h
  | cons u us ih =>
    cases posts with
    | nil => simp at h
    | cons p ps =>
      simp only [List.map_cons] at h
      obtain ⟨h1, h2⟩ := List.cons.inj h
      simp only [download_posts, h1, ih ps h2]
      simp [flattenAttachments, List.map_append, List.append_assoc]

/-- Helper: the number of flattened tasks is the sum over posts of
pictures plus file attachments. -/
theorem flattenAttachments_length (posts : List KemonoPost) :
    (flattenAttachments posts).length =
      (posts.map (fun p => p.pictures.length + p.file_attachments.length)).sum := by
  induction posts with
  | nil => rfl
  | cons p ps ih =>
    simp [flattenAttachments, ih]
    omega

/-- C6: with every post fetch succeeding, `download_posts` returns, in
task-submission order, exactly the outcome of each attachment of the
flattened list — each post's pictures then its file attachments, post
order preserved — and the number of submitted tasks is the sum over the
posts of their attachment counts.  Every returned outcome is terminal:
the executor's `with` block shuts down with `wait=True` before the
function returns. -/
theorem c6_orchestrator_order (fetchPost : String → Except Err KemonoPost)
    (download : KemonoAttachment → Except Err FilePath)
    (urls : List String) (posts : List KemonoPost)
    (h : urls.map fetchPost = posts.map Except.ok) :
    download_posts fetchPost download urls =
      Except.ok ((flattenAttachments posts).map download) ∧
    ((flattenAttachments posts).map download).length =
      (posts.map (fun p => p.pictures.length + p.file_attachments.length)).sum := by
  refine ⟨download_posts_ok_eq fetchPost download urls posts h, ?_⟩
  rw [List.length_map, flattenAttachments_length]

/-- Witness for C6, scenario A: a post with 2 previews and 1 file
attachment plus a post with none submit exactly 3 tasks, pictures first.
The first post is obtained by actually decoding its payload. -/
theorem c6_orchestrator_order_witness :
    (["uA", "uB"].map fetchA = [postA, postB].map Except.ok) ∧
    (download_posts fetchA dlOk ["uA", "uB"] =
       Except.ok ((flattenAttachments [postA, postB]).map dlOk) ∧
     ((flattenAttachments [postA, postB]).map dlOk).length =
       ([postA, postB].map
         (fun p => p.pictures.length + p.file_attachments.length)).sum) ∧
    ((flattenAttachments [postA, postB]).map dlOk).length = 3 :=
  ⟨rfl, c6_orchestrator_order fetchA dlOk ["uA", "uB"] [postA, postB] rfl, rfl⟩

/-- C1 counterexample: in the batch `["u1", "u2"]` the first post
resolves and carries attachments, but the second post's metadata fetch
fails after its retries — and `download_posts` then raises instead of
returning any outcome list: the sibling post's tasks do not surface as
outcomes and no summary is produced, so a metadata failure is not
isolated. -/
theorem c1_counterexample :
    download_posts fetchPost1 dlOk ["u1", "u2"] =
      Except.error (Err.retryError (Err.http 500) 5) ∧
    (download_posts fetchPost1 dlOk ["u1", "u2"]).isOk = false :=
  ⟨rfl, rfl⟩

/-- C1 amended: isolation holds at the attachment level only.  When every
post's metadata resolves, each submitted task reaches a terminal outcome
recorded at its submission position, and the outcome of task `i` depends
only on its own attachment's download behaviour — changing whether any
sibling succeeds or fails (`d1` versus `d2`, agreeing on attachment `i`)
leaves outcome `i` unchanged, and no task vanishes from the list. -/
theorem c1_attachment_failure_isolated
    (fetchPost : String → Except Err KemonoPost)
    (d1 d2 : KemonoAttachment → Except Err FilePath)
    (urls : List String) (posts : List KemonoPost)
    (h : urls.map fetchPost = posts.map Except.ok)
    (i : Nat) (hi : i < (flattenAttachments posts).length)
    (hagree : d1 ((flattenAttachments posts).get ⟨i, hi⟩) =
              d2 ((flattenAttachments posts).get ⟨i, hi⟩)) :
    ∃ outs1 outs2 : List (Except Err FilePath),
      download_posts fetchPost d1 urls = Except.ok outs1 ∧
      download_posts fetchPost d2 urls = Except.ok outs2 ∧
      outs1.length = (flattenAttachments posts).length ∧
      outs2.length = (flattenAttachments posts).length ∧
      outs1[i]? = some (d1 ((flattenAttachments posts).get ⟨i, hi⟩)) ∧
      outs2[i]? = outs1[i]? := by
  refine ⟨(flattenAttachments posts).map d1, (flattenAttachments posts).map d2,
    download_posts_ok_eq fetchPost d1 urls posts h,
    download_posts_ok_eq fetchPost d2 urls posts h,
    by simp, by simp, ?_, ?_⟩
  · rw [List.getElem?_map, List.getElem?_eq_getElem hi]
    rfl
  · rw [List.getElem?_map, List.getElem?_map, List.getElem?_eq_getElem hi]
    rw [List.get_eq_getElem] at hagree
    simp [hagree]

/-- Witness for C1's amended statement: in scenario A's batch, the first
preview's outcome is the same whether its siblings succeed (`dlOk`) or
all fail (`dlOnlyFirst`). -/
theorem c1_attachment_failure_isolated_witness :
    (["uA", "uB"].map fetchA = [postA, postB].map Except.ok) ∧
    (dlOk ((flattenAttachments [postA, postB]).get ⟨0, by decide⟩) =
       dlOnlyFirst ((flattenAttachments [postA, postB]).get ⟨0, by decide⟩)) ∧
    (∃ outs1 outs2 : List (Except Err FilePath),
      download_posts fetchA dlOk ["uA", "uB"] = Except.ok outs1 ∧
      download_posts fetchA dlOnlyFirst ["uA", "uB"] = Except.ok outs2 ∧
      outs1.length = (flattenAttachments [postA, postB]).length ∧
      outs2.length = (flattenAttachments [postA, postB]).length ∧
      outs1[0]? =
        some (dlOk ((flattenAttachments [postA, postB]).get ⟨0, by decide⟩)) ∧
      outs2[0]? = outs1[0]?) :=
  ⟨rfl, rfl,
   c1_attachment_failure_isolated fetchA dlOk dlOnlyFirst ["uA", "uB"]
     [postA, postB] rfl 0 (by decide) rfl⟩

/-- Helper: a list of characters none of which is a dot is its own
`takeWhile (· ≠ '.')`. -/
theorem takeWhile_all_eq (l : List Char) (h : ∀ c ∈ l, c ≠ '.') :
    l.takeWhile (fun c => c ≠ '.') = l := by
  induction l with
  | nil => rfl
  | cons c cs ih =>
    have hc : c ≠ '.' := h c (List.mem_cons_self c cs)
    simp [List.takeWhile_cons, hc]
    exact fun x hx => h x (List.mem_cons_of_mem c hx)

/-- Helper: `rsplit('.', 1)[-1]` on a dot-free string returns the whole
string. -/
theorem rsplitLastDot_no_dot (s : String) (h : ∀ c ∈ s.data, c ≠ '.') :
    rsplitLastDot s = s := by
  unfold rsplitLastDot
  rw [takeWhile_all_eq _ (fun c hc => h c (List.mem_reverse.mp hc))]
  rw [List.reverse_reverse]

/-- Helper: a generated preview filename is never the empty string (so it
is never replaced by the payload name in `KemonoAttachment.from_json`). -/
theorem pictureFilename_ne_empty (n : Nat) (p : String) :
    pictureFilename n p ≠ "" := by
  unfold pictureFilename
  intro hmm
  have hlen : (toString n ++ "." ++ rsplitLastDot p).length = 0 := by
    rw [hmm]; rfl
  rw [String.length_append, String.length_append] at hlen
  have hdot : ("." : String).length = 1 := rfl
  omega

/-- Helper: every successfully decoded preview list pairs each payload,
in order, with the filename `"{1-based position}." ++ extension`, where
the extension is the remote path's text after its final dot
(`rsplitLastDot`). -/
theorem makePicturesGo_filenames (folder : FilePath) (previews : List Json)
    (n : Nat) (res : List KemonoAttachment)
    (h : makePicturesGo folder n previews = Except.ok res) :
    res.length = previews.length ∧
    ∀ i (hi : i < res.length), ∃ j p,
      previews[i]? = some j ∧ j.getStr "path" = Except.ok p ∧
      (res.get ⟨i, hi⟩).filename = pictureFilename (n + i) p := by
  induction previews generalizing n res with
  | nil =>
    simp only [makePicturesGo] at h
    cases h
    simp
  | cons j rest ih =>
    simp only [makePicturesGo] at h
    split at h
    · cases h
    next p hp =>
      split at h
      · cases h
      next a ha =>
        split at h
        · cases h
        next as hrest =>
          cases h
          obtain ⟨ihlen, ihall⟩ := ih (n + 1) as hrest
          have hfn : a.filename = pictureFilename n p := by
            unfold KemonoAttachment.from_json at ha
            split at ha
            · cases ha
            next name hn =>
              split at ha
              · cases ha
              next p2 hp2 =>
                split at ha
                · cases ha
                next server hs =>
                  cases ha
                  simp [pictureFilename_ne_empty n p]
          constructor
          · simp [ihlen]
          · intro i hi
            cases i with
            | zero =>
              refine ⟨j, p, by simp, hp, ?_⟩
              simpa using hfn
            | succ i2 =>
              have hi2 : i2 < as.length := by simpa using hi
              obtain ⟨j2, p2, hj2, hp2, hf2⟩ := ihall i2 hi2
              refine ⟨j2, p2, by simpa using hj2, hp2, ?_⟩
              have hnn : n + 1 + i2 = n + (i2 + 1) := by omega
              rw [← hnn]
              simpa using hf2

/-- Helper: every successfully decoded file-attachment list keeps each
payload's own `name` as the local filename. -/
theorem makeAttachmentsGo_filenames (folder : FilePath) (js : List Json)
    (res : List KemonoAttachment)
    (h : makeAttachmentsGo folder js = Except.ok res) :
    res.length = js.length ∧
    ∀ i (hi : i < res.length), ∃ j name,
      js[i]? = some j ∧ j.getStr "name" = Except.ok name ∧
      (res.get ⟨i, hi⟩).filename = name := by
  induction js generalizing res with
  | nil =>
    simp only [makeAttachmentsGo] at h
    cases h
    simp
  | cons j rest ih =>
    simp only [makeAttachmentsGo] at h
    split at h
    · cases h
    next a ha =>
      split at h
      · cases h
      next as hrest =>
        cases h
        obtain ⟨ihlen, ihall⟩ := ih as hrest
        have hfn : ∃ name, j.getStr "name" = Except.ok name ∧
            a.filename = name := by
          unfold KemonoAttachment.from_json at ha
          split at ha
          · cases ha
          next name hn =>
            split at ha
            · cases ha
            next p2 hp2 =>
              split at ha
              · cases ha
              next server hs =>
                cases ha
                exact ⟨name, hn, rfl⟩
        obtain ⟨name, hn, hfname⟩ := hfn
        constructor
        · simp [ihlen]
        · intro i hi
          cases i with
          | zero => exact ⟨j, name, by simp, hn, by simpa using hfname⟩
          | succ i2 =>
            have hi2 : i2 < as.length := by simpa using hi
            obtain ⟨j2, n2, hj2, hn2, hf2⟩ := ihall i2 hi2
            exact ⟨j2, n2, by simpa using hj2, hn2, by simpa using hf2⟩

/-- C7 counterexample: decoding a preview whose remote path `noext`
contains no dot produces the filename `"1.noext"` — Python's
`rsplit('.', 1)[-1]` returns the whole string when the separator is
absent — and not the claimed `"1."` with a trailing empty extension. -/
theorem c7_counterexample :
    makePicturesGo folderA 1 [previewJson "noext"] =
      Except.ok [{ name := "pic", path := "noext",
                   server := "https://n1.kemono.su", filename := "1.noext",
                   parent_path := folderA }] ∧
    ¬ ("1.noext" : String) = "1." := ⟨rfl, by decide⟩

/-- C7 amended: the i-th preview (1-based, payload order) gets filename
`"{i}." ++ rsplitLastDot path` where `rsplitLastDot` yields the text
after the path's final dot; for a dot-free path this is the whole path
(so the filename is `"{i}.{path}"`, not `"{i}."`); a path ending in a
dot yields the trailing empty extension.  File attachments keep their
payload `name` unchanged. -/
theorem c7_preview_and_attachment_filenames :
    (∀ (folder : FilePath) (previews : List Json) (res : List KemonoAttachment),
       makePicturesGo folder 1 previews = Except.ok res →
       res.length = previews.length ∧
       ∀ i (hi : i < res.length), ∃ j p,
         previews[i]? = some j ∧ j.getStr "path" = Except.ok p ∧
         (res.get ⟨i, hi⟩).filename = pictureFilename (1 + i) p) ∧
    (∀ s : String, (∀ c ∈ s.data, c ≠ '.') → rsplitLastDot s = s) ∧
    (∀ (folder : FilePath) (js : List Json) (res : List KemonoAttachment),
       makeAttachmentsGo folder js = Except.ok res →
       ∀ i (hi : i < res.length), ∃ j name,
         js[i]? = some j ∧ j.getStr "name" = Except.ok name ∧
         (res.get ⟨i, hi⟩).filename = name) :=
  ⟨fun folder previews res h => makePicturesGo_filenames folder previews 1 res h,
   rsplitLastDot_no_dot,
   fun folder js res h => (makeAttachmentsGo_filenames folder js res h).2⟩

/-- Witness for C7's amended statement: the second preview (path
`noext`) of a decoded pair gets filename `pictureFilename 2 "noext"`,
a dot-free path keeps itself as the extension, and the decoded
`file.zip` attachment keeps its name. -/
theorem c7_preview_and_attachment_filenames_witness :
    (∃ j p, ([previewJson "a.jpg", previewJson "noext"] : List Json)[1]? = some j ∧
       j.getStr "path" = Except.ok p ∧
       (picsW.get ⟨1, by decide⟩).filename = pictureFilename (1 + 1) p) ∧
    rsplitLastDot "noext" = "noext" ∧
    (∃ j name, ([attachJson "file.zip"] : List Json)[0]? = some j ∧
       j.getStr "name" = Except.ok name ∧
       (attsW.get ⟨0, by decide⟩).filename = name) :=
  ⟨(c7_preview_and_attachment_filenames.1 folderA
      [previewJson "a.jpg", previewJson "noext"] picsW rfl).2 1 (by decide),
   c7_preview_and_attachment_filenames.2.1 "noext" (by decide),
   c7_preview_and_attachment_filenames.2.2 folderA [attachJson "file.zip"]
     attsW rfl 0 (by decide)⟩

/-- Helper: summing stat sizes over the successful tasks only equals the
sum over all tasks where a failed task contributes zero bytes. -/
theorem filter_taskOk_sum (fs : FilePath → Nat) (l : List (Except Err FilePath)) :
    ((l.filter (fun t => taskOk t)).map (fun t => fs (taskResult t))).sum =
      (l.map (fun t => match t with
        | Except.ok p => fs p
        | Except.error _ => 0)).sum := by
  induction l with
  | nil => rfl
  | cons t rest ih =>
    cases t with
    | ok p =>
      have h1 : List.filter (fun t => taskOk t) (Except.ok p :: rest) =
          Except.ok p :: List.filter (fun t => taskOk t) rest := rfl
      rw [h1]
      simp only [List.map_cons, List.sum_cons, ih]
      rfl
    | error e =>
      have h1 : List.filter (fun t => taskOk t) (Except.error e :: rest) =
          List.filter (fun t => taskOk t) rest := rfl
      rw [h1, ih]
      simp

/-- C4 counterexample: `summarize_download` emits its results as log
events (console/file output) and its returned value is `()` — it does
not return a Summary value, and it is not free of I/O (beyond the log
writes, the byte total is obtained by statting each downloaded file). -/
theorem c4_counterexample :
    summarize_download (fun _ => 7)
        [Except.ok ["downloads", "a"], Except.error (Err.http 500)] =
      ((), [LogEvent.summaryCounts 1 2, LogEvent.summarySize 7]) ∧
    ¬ (summarize_download (fun _ => 7)
        [Except.ok ["downloads", "a"], Except.error (Err.http 500)]).2 =
      ([] : List LogEvent) :=
  ⟨rfl, by decide⟩

/-- C4 amended: the counts `summarize_download` computes do follow the
claimed formulas — submitted = length of the outcome list, succeeded =
number of non-exception outcomes, total bytes = sum of the stat sizes of
the succeeded outcomes with failed outcomes contributing zero — but they
are written to the log and the function returns `None`; no Summary value
is returned and no failure list is produced. -/
theorem c4_summary_counts (fs : FilePath → Nat)
    (download_tasks : List (Except Err FilePath)) :
    summarize_download fs download_tasks =
      ((), [LogEvent.summaryCounts
              (download_tasks.countP (fun t => taskOk t))
              download_tasks.length,
            LogEvent.summarySize
              ((download_tasks.map (fun t => match t with
                | Except.ok p => fs p
                | Except.error _ => 0)).sum)]) := by
  show ((), [LogEvent.summaryCounts
               (download_tasks.filter (fun t => taskOk t)).length
               download_tasks.length,
             LogEvent.summarySize
               ((download_tasks.filter (fun t => taskOk t)).map
                 (fun t => fs (taskResult t))).sum]) = _
  rw [List.countP_eq_length_filter, filter_taskOk_sum]

/-- C9 counterexample: under the interleaving in which both workers read
the cache (and miss) before either has stored, each performs its own
fetch — `functools.cache` provides no per-key singleflight — so the
underlying profile fetch runs twice, not exactly once. -/
theorem c9_counterexample :
    (runSched fetchC kA kA initConc overlapSched).fetchCount = 2 ∧
    ¬ (runSched fetchC kA kA initConc overlapSched).fetchCount = 1 :=
  ⟨rfl, by decide⟩

/-- C9 amended: concurrent misses on the same key may each trigger an
independent fetch (no singleflight), but the cache structure stays
coherent — both workers terminate with the fetched Creator and the key
ends populated; concurrent misses on distinct keys also proceed through
the same interleaving with both keys populated and no cross-key
serialization in the model. -/
theorem c9_no_singleflight (fetch : CKey → Creator) (k k2 : CKey)
    (hne : ¬ k2 = k) :
    ((runSched fetch k k initConc overlapSched).fetchCount = 2 ∧
     (runSched fetch k k initConc overlapSched).pc1 = WPC.done (fetch k) ∧
     (runSched fetch k k initConc overlapSched).pc2 = WPC.done (fetch k) ∧
     lookupKey (runSched fetch k k initConc overlapSched).cache k =
       some (fetch k)) ∧
    ((runSched fetch k k2 initConc overlapSched).fetchCount = 2 ∧
     (runSched fetch k k2 initConc overlapSched).pc1 = WPC.done (fetch k) ∧
     (runSched fetch k k2 initConc overlapSched).pc2 = WPC.done (fetch k2) ∧
     lookupKey (runSched fetch k k2 initConc overlapSched).cache k =
       some (fetch k) ∧
     lookupKey (runSched fetch k k2 initConc overlapSched).cache k2 =
       some (fetch k2)) := by
  constructor
  · simp [runSched, schedStep, workerStep, initConc, overlapSched, lookupKey]
  · simp [runSched, schedStep, workerStep, initConc, overlapSched, lookupKey, hne]

/-- Witness for C9's amended statement at two concrete distinct keys. -/
theorem c9_no_singleflight_witness :
    ¬ kB = kA ∧
    (((runSched fetchC kA kA initConc overlapSched).fetchCount = 2 ∧
      (runSched fetchC kA kA initConc overlapSched).pc1 = WPC.done (fetchC kA) ∧
      (runSched fetchC kA kA initConc overlapSched).pc2 = WPC.done (fetchC kA) ∧
      lookupKey (runSched fetchC kA kA initConc overlapSched).cache kA =
        some (fetchC kA)) ∧
     ((runSched fetchC kA kB initConc overlapSched).fetchCount = 2 ∧
      (runSched fetchC kA kB initConc overlapSched).pc1 = WPC.done (fetchC kA) ∧
      (runSched fetchC kA kB initConc overlapSched).pc2 = WPC.done (fetchC kB) ∧
      lookupKey (runSched fetchC kA kB initConc overlapSched).cache kA =
        some (fetchC kA) ∧
      lookupKey (runSched fetchC kA kB initConc overlapSched).cache kB =
        some (fetchC kB))) :=
  ⟨by decide, c9_no_singleflight fetchC kA kB (by decide)⟩

end Kemono
